import Mathlib

/-!
Verification of the HMS hospital-registration core: a shallow embedding of
the Hospital entity model, the validation and registration service, the
SQLite-backed repository operations, and the schema migrator, together with
theorems settling the specification claims about them.

Sources embedded (translated definition by definition):
  app/models/hospital.py            (Hospital dataclass, Hospital.from_row)
  app/services/hospital_service.py  (ServiceResult, HospitalService)
  app/repositories/hospital_repository.py (HospitalRepository)
  app/database/schema.py            (MIGRATIONS, SchemaManager)

Python machine-level details are modelled as follows: `str.strip` strips the
whitespace characters space, tab, newline, carriage return, vertical tab and
form feed from both ends; the regular expressions of the service are compiled
to executable character-list matchers with ASCII word characters (the claims
probe only ASCII data, and every matched value is stripped first, so the
dollar anchor is exact end of string); SQLite rows are records whose `id`
column is the non-null integer primary key; `datetime` defaults are modelled
by a logical clock on the store; the SQL `LIKE` operator is the standard
percent/underscore wildcard match, ASCII case-insensitive; `ORDER BY
hospital_name` is a stable sort by the name column in code-point order.
-/

/-! ## Python string primitives -/

/-- Whitespace for the purposes of Python `str.strip` and the regex class
backslash-s: space, tab, newline, carriage return, vertical tab, form feed. -/
def isPySpace (c : Char) : Bool :=
  c == ' ' || c == '\t' || c == '\n' || c == '\r' || c == '\x0b' || c == '\x0c'

/-- Python `str.strip()`: drop whitespace from both ends. -/
def pyStrip (s : String) : String :=
  String.mk (((s.data.dropWhile isPySpace).reverse.dropWhile isPySpace).reverse)

/-- Split a character list at the first occurrence of `c`, if any. -/
def splitFirst (c : Char) : List Char → Option (List Char × List Char)
  | [] => none
  | x :: xs =>
    if x == c then some ([], xs)
    else (splitFirst c xs).map (fun p => (x :: p.1, p.2))

/-- Split a character list at the last occurrence of `c`, if any. -/
def splitLast (c : Char) (l : List Char) : Option (List Char × List Char) :=
  (splitFirst c l.reverse).map (fun p => (p.2.reverse, p.1.reverse))

/-! ## The regular expressions of HospitalService

`_EMAIL_RE = ^[\w.%+\-]+@[\w.\-]+\.[a-zA-Z]{2,}$`
`_PHONE_RE = ^\+?\d{7,15}$`
`_PIN_RE   = ^[A-Z0-9\s\-]{4,10}$` with IGNORECASE.
Each is applied with `re.match` to an already stripped string, so the match
is anchored at both ends. -/

/-- Regex word character (ASCII): letter, digit or underscore. -/
def isWordChar (c : Char) : Bool := c.isAlpha || c.isDigit || c == '_'

/-- Character class of the local part of `_EMAIL_RE`. -/
def emailLocalChar (c : Char) : Bool :=
  isWordChar c || c == '.' || c == '%' || c == '+' || c == '-'

/-- Character class of the domain part of `_EMAIL_RE`. -/
def emailDomainChar (c : Char) : Bool :=
  isWordChar c || c == '.' || c == '-'

/-- Full match of `_EMAIL_RE`: a non-empty local part, an at sign, then a
domain that ends in a dot followed by at least two letters.  Because the tail
group admits only letters, the regex matches exactly when the split at the
last dot of the domain works out. -/
def emailMatch (s : String) : Bool :=
  match splitFirst '@' s.data with
  | none => false
  | some (loc, dom) =>
    !loc.isEmpty && loc.all emailLocalChar &&
    (match splitLast '.' dom with
     | none => false
     | some (a, tld) =>
       !a.isEmpty && a.all emailDomainChar &&
       decide (2 ≤ tld.length) && tld.all Char.isAlpha)

/-- Full match of `_PHONE_RE`: an optional leading plus sign, then 7 to 15
digits. -/
def phoneMatch (s : String) : Bool :=
  let d := match s.data with
    | '+' :: rest => rest
    | l => l
  d.all Char.isDigit && decide (7 ≤ d.length) && decide (d.length ≤ 15)

/-- Character class of `_PIN_RE` under IGNORECASE: letters, digits,
whitespace, hyphen. -/
def pinChar (c : Char) : Bool := c.isAlpha || c.isDigit || isPySpace c || c == '-'

/-- Full match of `_PIN_RE`: 4 to 10 characters of the class. -/
def pinMatch (s : String) : Bool :=
  decide (4 ≤ s.data.length) && decide (s.data.length ≤ 10) && s.data.all pinChar

/-! ## The Hospital entity (app/models/hospital.py) -/

/-- The Hospital dataclass.  Field names, types and defaults follow the
source; optional columns are `Option`, the primary key `id` is absent before
persistence, timestamps are absent until assigned by storage. -/
structure Hospital where
  hospital_name : String
  registration_number : String
  hospital_type : String
  specialization_type : String
  address_line1 : String
  city : String
  state : String
  pin_code : String
  country : String := "India"
  address_line2 : Option String := none
  phone_primary : String := ""
  phone_alternate : Option String := none
  emergency_contact : String := ""
  email : String := ""
  website : Option String := none
  total_beds : Int := 0
  icu_beds : Int := 0
  operation_theaters : Int := 0
  administrator_name : String := ""
  license_number : String := ""
  accreditation : String := "None"
  established_year : Int := 2000
  gstin : Option String := none
  id : Option Nat := none
  is_active : Bool := true
  created_at : Option String := none
  updated_at : Option String := none
deriving DecidableEq

/-! ## The hospitals table (app/database/schema.py DDL) -/

/-- One row of the `hospitals` table.  Every NOT NULL column is a plain
value; `id` is the integer primary key; `created_at` and `updated_at` are
NOT NULL with a datetime default. -/
structure HospitalRow where
  id : Nat
  hospital_name : String
  registration_number : String
  hospital_type : String
  specialization_type : String
  address_line1 : String
  address_line2 : Option String
  city : String
  state : String
  pin_code : String
  country : String
  phone_primary : String
  phone_alternate : Option String
  emergency_contact : String
  email : String
  website : Option String
  total_beds : Int
  icu_beds : Int
  operation_theaters : Int
  administrator_name : String
  license_number : String
  accreditation : String
  established_year : Int
  gstin : Option String
  is_active : Bool
  created_at : String
  updated_at : String
deriving DecidableEq

/-- The file-backed store: the `hospitals` table rows in insertion order,
the next AUTOINCREMENT rowid, and a logical clock standing in for
`datetime(now, localtime)`. -/
structure DB where
  rows : List HospitalRow
  nextId : Nat
  clock : Nat
deriving DecidableEq

/-- The empty store right after migration. -/
def db0 : DB := ⟨[], 1, 0⟩

/-- Rendering of the logical clock as the datetime text SQLite would store. -/
def timeString (n : Nat) : String := "t" ++ toString n

/-- The row written by `_INSERT_SQL` with `_hospital_to_params`: every entity
field verbatim (the insert column list omits `id`, `created_at` and
`updated_at`, which take their storage defaults). -/
def hospitalToRow (h : Hospital) (newId : Nat) (ts : String) : HospitalRow :=
  { id := newId
    hospital_name := h.hospital_name
    registration_number := h.registration_number
    hospital_type := h.hospital_type
    specialization_type := h.specialization_type
    address_line1 := h.address_line1
    address_line2 := h.address_line2
    city := h.city
    state := h.state
    pin_code := h.pin_code
    country := h.country
    phone_primary := h.phone_primary
    phone_alternate := h.phone_alternate
    emergency_contact := h.emergency_contact
    email := h.email
    website := h.website
    total_beds := h.total_beds
    icu_beds := h.icu_beds
    operation_theaters := h.operation_theaters
    administrator_name := h.administrator_name
    license_number := h.license_number
    accreditation := h.accreditation
    established_year := h.established_year
    gstin := h.gstin
    is_active := h.is_active
    created_at := ts
    updated_at := ts }

/-- `Hospital.from_row`: rebuild the entity from a stored row. -/
def Hospital.fromRow (r : HospitalRow) : Hospital :=
  { hospital_name := r.hospital_name
    registration_number := r.registration_number
    hospital_type := r.hospital_type
    specialization_type := r.specialization_type
    address_line1 := r.address_line1
    address_line2 := r.address_line2
    city := r.city
    state := r.state
    pin_code := r.pin_code
    country := r.country
    phone_primary := r.phone_primary
    phone_alternate := r.phone_alternate
    emergency_contact := r.emergency_contact
    email := r.email
    website := r.website
    total_beds := r.total_beds
    icu_beds := r.icu_beds
    operation_theaters := r.operation_theaters
    administrator_name := r.administrator_name
    license_number := r.license_number
    accreditation := r.accreditation
    established_year := r.established_year
    gstin := r.gstin
    id := some r.id
    is_active := r.is_active
    created_at := some r.created_at
    updated_at := some r.updated_at }

/-! ## HospitalRepository (app/repositories/hospital_repository.py) -/

/-- `HospitalRepository.add`, success path: insert the row built from the
entity, commit, set the id of the entity to `lastrowid` and return it. -/
def add (h : Hospital) (db : DB) : Hospital × DB :=
  ({ h with id := some db.nextId },
   ⟨db.rows ++ [hospitalToRow h db.nextId (timeString db.clock)],
    db.nextId + 1, db.clock + 1⟩)

/-- `HospitalRepository.add` as seen through sqlite3: the UNIQUE constraints
on `registration_number` and `license_number` and the CHECK constraint
`total_beds > 0` of the `hospitals` DDL raise an IntegrityError, surfaced as
an exception; otherwise the insert succeeds. -/
def addE (h : Hospital) (db : DB) : Except String (Hospital × DB) :=
  if h.total_beds ≤ 0 then
    Except.error "CHECK constraint failed: total_beds"
  else if db.rows.any (fun r => r.registration_number == h.registration_number) then
    Except.error "UNIQUE constraint failed: hospitals.registration_number"
  else if db.rows.any (fun r => r.license_number == h.license_number) then
    Except.error "UNIQUE constraint failed: hospitals.license_number"
  else
    Except.ok (add h db)

/-- `HospitalRepository.find_by_id`. -/
def findById (i : Nat) (db : DB) : Option Hospital :=
  (db.rows.find? (fun r => r.id == i)).map Hospital.fromRow

/-- `HospitalRepository.exists_registration_number`: with an exclude id the
query is `registration_number = ? AND id != ?`, otherwise
`registration_number = ?`. -/
def existsRegistrationNumber (db : DB) (v : String) (excludeId : Option Nat) : Bool :=
  match excludeId with
  | some i => db.rows.any (fun r => r.registration_number == v && r.id != i)
  | none => db.rows.any (fun r => r.registration_number == v)

/-- `HospitalRepository.exists_license_number`: symmetric over the
`license_number` column. -/
def existsLicenseNumber (db : DB) (v : String) (excludeId : Option Nat) : Bool :=
  match excludeId with
  | some i => db.rows.any (fun r => r.license_number == v && r.id != i)
  | none => db.rows.any (fun r => r.license_number == v)

/-! ## ServiceResult and validation (app/services/hospital_service.py) -/

/-- Outcome value of a service operation. -/
structure ServiceResult where
  success : Bool
  message : String
  data : Option Hospital
deriving DecidableEq

/-- `ServiceResult.ok`. -/
def ServiceResult.okMsg (m : String) (d : Option Hospital) : ServiceResult :=
  ⟨true, m, d⟩

/-- `ServiceResult.fail`. -/
def ServiceResult.fail (m : String) : ServiceResult := ⟨false, m, none⟩

/-- `HospitalService._validate`: the ordered rule pipeline, returning the
first failure found.  The fourteen mandatory-field checks come from the
`mandatory` list in source order; the current-year constant of the source is
2026. -/
def validate (h : Hospital) (db : DB) : ServiceResult :=
  if pyStrip h.hospital_name = "" then ServiceResult.fail "Hospital Name is required."
  else if pyStrip h.registration_number = "" then ServiceResult.fail "Registration Number is required."
  else if pyStrip h.hospital_type = "" then ServiceResult.fail "Hospital Type is required."
  else if pyStrip h.specialization_type = "" then ServiceResult.fail "Specialization Type is required."
  else if pyStrip h.address_line1 = "" then ServiceResult.fail "Address Line 1 is required."
  else if pyStrip h.city = "" then ServiceResult.fail "City is required."
  else if pyStrip h.state = "" then ServiceResult.fail "State is required."
  else if pyStrip h.pin_code = "" then ServiceResult.fail "PIN Code is required."
  else if pyStrip h.country = "" then ServiceResult.fail "Country is required."
  else if pyStrip h.phone_primary = "" then ServiceResult.fail "Primary Phone is required."
  else if pyStrip h.emergency_contact = "" then ServiceResult.fail "Emergency Contact is required."
  else if pyStrip h.email = "" then ServiceResult.fail "Email is required."
  else if pyStrip h.administrator_name = "" then ServiceResult.fail "Administrator Name is required."
  else if pyStrip h.license_number = "" then ServiceResult.fail "License Number is required."
  else if h.total_beds ≤ 0 then ServiceResult.fail "Total Beds must be greater than 0."
  else if h.icu_beds < 0 then ServiceResult.fail "ICU Beds cannot be negative."
  else if h.icu_beds > h.total_beds then ServiceResult.fail "ICU Beds cannot exceed Total Beds."
  else if h.operation_theaters < 0 then ServiceResult.fail "Operation Theaters cannot be negative."
  else if ¬(1800 ≤ h.established_year ∧ h.established_year ≤ 2026) then
    ServiceResult.fail "Established Year must be between 1800 and 2026."
  else if !emailMatch (pyStrip h.email) then ServiceResult.fail "Email address format is invalid."
  else if !phoneMatch (pyStrip h.phone_primary) then ServiceResult.fail "Primary Phone number format is invalid."
  else if !phoneMatch (pyStrip h.emergency_contact) then ServiceResult.fail "Emergency Contact format is invalid."
  else if !pinMatch (pyStrip h.pin_code) then ServiceResult.fail "PIN Code format is invalid."
  else if existsRegistrationNumber db (pyStrip h.registration_number) h.id then
    ServiceResult.fail ("Registration Number \x27" ++ h.registration_number ++ "\x27 is already in use.")
  else if existsLicenseNumber db (pyStrip h.license_number) h.id then
    ServiceResult.fail ("License Number \x27" ++ h.license_number ++ "\x27 is already in use.")
  else ServiceResult.okMsg "Success" none

/-- Python `str` applied to the optional id, as interpolated into the
success message. -/
def optNatString : Option Nat → String
  | some n => toString n
  | none => "None"

/-- `HospitalService.register_hospital` with the outcome of the repository
add call abstracted: on validation failure return it; otherwise, an adding
exception is caught and wrapped, and success produces the confirmation
message carrying the saved entity. -/
def registerHospitalWith (h : Hospital) (db : DB)
    (addRes : Except String (Hospital × DB)) : ServiceResult × DB :=
  let v := validate h db
  if v.success then
    match addRes with
    | Except.ok (saved, db2) =>
      (ServiceResult.okMsg
        ("Hospital \x27" ++ saved.hospital_name ++ "\x27 registered successfully (ID: "
          ++ optNatString saved.id ++ ").")
        (some saved), db2)
    | Except.error e => (ServiceResult.fail ("Database error: " ++ e), db)
  else (v, db)

/-- `HospitalService.register_hospital` against the real repository. -/
def registerHospital (h : Hospital) (db : DB) : ServiceResult × DB :=
  registerHospitalWith h db (addE h db)

/-! ## Search (HospitalRepository.search) -/

/-- Is one character list a prefix of another, comparing with `==`. -/
def prefixOf : List Char → List Char → Bool
  | [], _ => true
  | _ :: _, [] => false
  | a :: as, b :: bs => a == b && prefixOf as bs

/-- Does `pat` occur as a contiguous run inside `hay`. -/
def containsSub (pat : List Char) : List Char → Bool
  | [] => prefixOf pat []
  | l@(_ :: t) => prefixOf pat l || containsSub pat t

/-- SQL LIKE match, ASCII case-insensitive: percent matches any run,
underscore matches any single character, every other pattern character
matches itself up to ASCII case. -/
def likeMatch : List Char → List Char → Bool
  | [], t => t.isEmpty
  | '%' :: p, t => t.tails.any (fun s => likeMatch p s)
  | '_' :: p, t =>
    match t with
    | [] => false
    | _ :: t2 => likeMatch p t2
  | c :: p, t =>
    match t with
    | [] => false
    | d :: t2 => c.toLower == d.toLower && likeMatch p t2

/-- The WHERE clause built by `HospitalRepository.search`: the `is_active`
condition when `active_only` is set, an exact id condition when an id is
supplied, and `LIKE` conditions over name and city wrapped in percent signs;
a criterion that is `None` or the empty string adds no condition (the source
tests `if name:`), and the conjunction of no conditions is true. -/
def searchCond (nameQ : Option String) (hid : Option Nat) (cityQ : Option String)
    (activeOnly : Bool) (r : HospitalRow) : Bool :=
  (!activeOnly || r.is_active) &&
  (match hid with
   | some i => r.id == i
   | none => true) &&
  (match nameQ with
   | none => true
   | some s => if s = "" then true else likeMatch ('%' :: (s.data ++ ['%'])) r.hospital_name.data) &&
  (match cityQ with
   | none => true
   | some s => if s = "" then true else likeMatch ('%' :: (s.data ++ ['%'])) r.city.data)

/-- Lexicographic code-point order on character lists: the BINARY collation
SQLite uses for ORDER BY over a TEXT column (byte order of UTF-8 agrees with
code-point order). -/
def charListLe : List Char → List Char → Bool
  | [], _ => true
  | _ :: _, [] => false
  | a :: as, b :: bs =>
    if a.val.toNat < b.val.toNat then true
    else if b.val.toNat < a.val.toNat then false
    else charListLe as bs

/-- ORDER BY hospital_name, ascending, on rows. -/
def rowLe (a b : HospitalRow) : Prop :=
  charListLe a.hospital_name.data b.hospital_name.data = true

instance : DecidableRel rowLe :=
  fun _ _ => inferInstanceAs (Decidable (_ = true))

/-- Name order on returned entities. -/
def hospLe (a b : Hospital) : Prop :=
  charListLe a.hospital_name.data b.hospital_name.data = true

/-- `HospitalRepository.search`: filter by the dynamic WHERE clause, sort by
hospital name, map every row back to an entity. -/
def search (db : DB) (nameQ : Option String) (hid : Option Nat) (cityQ : Option String)
    (activeOnly : Bool) : List Hospital :=
  (List.insertionSort rowLe ((db.rows.filter (searchCond nameQ hid cityQ activeOnly)))).map
    Hospital.fromRow

/-! ## Schema migrator (app/database/schema.py) -/

/-- The DDL statements defined at module level in `schema.py`, as opaque
statement tokens: the migrator never inspects statement text, it only hands
statements to the connection. -/
inductive SqlStmt where
  | SQL_CREATE_SCHEMA_VERSION
  | SQL_CREATE_HOSPITALS
  | SQL_CREATE_HOSPITAL_UPDATED_TRIGGER
  | SQL_CREATE_HOSPITALS_IDX_REG
  | SQL_CREATE_HOSPITALS_IDX_LICENSE
deriving DecidableEq

/-- One entry of the `MIGRATIONS` list: version, description, statements. -/
structure Migration where
  version : Nat
  description : String
  statements : List SqlStmt
deriving DecidableEq

/-- The `MIGRATIONS` list of the source: one migration, version 1, carrying
the five DDL statements in order. -/
def MIGRATIONS : List Migration :=
  [⟨1, "Initial schema – hospitals table",
    [SqlStmt.SQL_CREATE_SCHEMA_VERSION,
     SqlStmt.SQL_CREATE_HOSPITALS,
     SqlStmt.SQL_CREATE_HOSPITAL_UPDATED_TRIGGER,
     SqlStmt.SQL_CREATE_HOSPITALS_IDX_REG,
     SqlStmt.SQL_CREATE_HOSPITALS_IDX_LICENSE]⟩]

/-- Store state seen by the migrator: the schema objects (abstract, of type
`σ`, acted on only through the execution oracle) and the `schema_version`
ledger as (version, description) rows in insertion order. -/
structure MigDB (σ : Type) where
  schema : σ
  ledger : List (Nat × String)
deriving DecidableEq

/-- Outcome of `migrate()`: normal return, or an error raised to the caller;
either way the store is left in some committed state. -/
inductive MigResult (σ : Type) where
  | ok : MigDB σ → MigResult σ
  | err : String → MigDB σ → MigResult σ
deriving DecidableEq

/-- `_get_current_version`: `COALESCE(MAX(version), 0)` over the ledger. -/
def currentVersion (ledger : List (Nat × String)) : Nat :=
  ledger.foldr (fun p acc => max p.1 acc) 0

/-- Execute the statements of one migration in order on the schema through
the connection oracle `exec`, stopping at the first raised error.  Every
statement of the defined migrations is DDL, and the connection is created
with the default legacy transaction control, which issues an implicit BEGIN
only before data-modification statements: each DDL statement therefore runs
in autocommit mode and is durably committed the moment it succeeds.  On a
raised error the result carries the committed schema state reached so far —
the statements of the step that already executed stay applied. -/
def runStatements {σ : Type} (exec : SqlStmt → σ → Except String σ) :
    List SqlStmt → σ → Except (String × σ) σ
  | [], s => Except.ok s
  | st :: rest, s =>
    match exec st s with
    | Except.ok s2 => runStatements exec rest s2
    | Except.error e => Except.error (e, s)

/-- The migration loop of `SchemaManager.migrate`: skip versions at or below
the current version (read once, before the loop); otherwise run the
statements, insert the ledger row and commit.  When a statement raises, the
source calls `conn.rollback()` and raises the wrapped RuntimeError without
attempting further migrations — but because every statement of the step is
autocommitted DDL (see `runStatements`), no transaction is open at that
point and the rollback undoes nothing: the committed store keeps the
already-executed statements of the failed step, while the ledger row for the
step is never written (the ledger INSERT, the only statement that opens a
transaction, is reached only after every statement of the step
succeeded). -/
def migrateLoop {σ : Type} (exec : SqlStmt → σ → Except String σ) (cur : Nat) :
    List Migration → MigDB σ → MigResult σ
  | [], db => MigResult.ok db
  | m :: rest, db =>
    if m.version ≤ cur then migrateLoop exec cur rest db
    else
      match runStatements exec m.statements db.schema with
      | Except.ok s2 =>
        migrateLoop exec cur rest ⟨s2, db.ledger ++ [(m.version, m.description)]⟩
      | Except.error (e, sPart) =>
        MigResult.err ("[SchemaManager] Migration v" ++ toString m.version ++ " failed: " ++ e)
          ⟨sPart, db.ledger⟩

/-- `SchemaManager.migrate`: ensure the version table exists, read the
current version once, then run the loop over the given migrations list. -/
def migrate {σ : Type} (exec : SqlStmt → σ → Except String σ) (migs : List Migration)
    (db : MigDB σ) : MigResult σ :=
  match exec SqlStmt.SQL_CREATE_SCHEMA_VERSION db.schema with
  | Except.error e => MigResult.err e db
  | Except.ok s1 => migrateLoop exec (currentVersion db.ledger) migs ⟨s1, db.ledger⟩

/-! ## Spec-side definitions

These follow the words of the specification, for comparison with the
definitions above that were translated from the source. -/

/-- One check of the spec pipeline: evaluated on the input and the store, it
either reports a failure message or passes. -/
def SpecCheck := Hospital → DB → Option String

/-- The spec pipeline discipline: run the checks in list order, first
failure wins and no further check runs; all checks passing is success. -/
def firstFail : List SpecCheck → Hospital → DB → ServiceResult
  | [], _, _ => ServiceResult.okMsg "Success" none
  | c :: cs, h, db => ((c h db).map ServiceResult.fail).getD (firstFail cs h db)

/-- The ordered checks of spec section 4.3: the fourteen mandatory-field
presence checks (trimmed non-empty) over name, registration number, hospital
type, specialization type, address line 1, city, state, pin code, country,
primary phone, emergency contact, email, administrator name, license number;
then total beds positive, ICU beds non-negative, ICU beds at most total
beds, operation theaters non-negative, established year in range, email
format, primary-phone format, emergency-contact format, pin-code format,
registration-number uniqueness, license-number uniqueness. -/
def specChecks : List SpecCheck :=
  [fun h _ => if pyStrip h.hospital_name = "" then some "Hospital Name is required." else none,
   fun h _ => if pyStrip h.registration_number = "" then some "Registration Number is required." else none,
   fun h _ => if pyStrip h.hospital_type = "" then some "Hospital Type is required." else none,
   fun h _ => if pyStrip h.specialization_type = "" then some "Specialization Type is required." else none,
   fun h _ => if pyStrip h.address_line1 = "" then some "Address Line 1 is required." else none,
   fun h _ => if pyStrip h.city = "" then some "City is required." else none,
   fun h _ => if pyStrip h.state = "" then some "State is required." else none,
   fun h _ => if pyStrip h.pin_code = "" then some "PIN Code is required." else none,
   fun h _ => if pyStrip h.country = "" then some "Country is required." else none,
   fun h _ => if pyStrip h.phone_primary = "" then some "Primary Phone is required." else none,
   fun h _ => if pyStrip h.emergency_contact = "" then some "Emergency Contact is required." else none,
   fun h _ => if pyStrip h.email = "" then some "Email is required." else none,
   fun h _ => if pyStrip h.administrator_name = "" then some "Administrator Name is required." else none,
   fun h _ => if pyStrip h.license_number = "" then some "License Number is required." else none,
   fun h _ => if h.total_beds ≤ 0 then some "Total Beds must be greater than 0." else none,
   fun h _ => if h.icu_beds < 0 then some "ICU Beds cannot be negative." else none,
   fun h _ => if h.icu_beds > h.total_beds then some "ICU Beds cannot exceed Total Beds." else none,
   fun h _ => if h.operation_theaters < 0 then some "Operation Theaters cannot be negative." else none,
   fun h _ => if ¬(1800 ≤ h.established_year ∧ h.established_year ≤ 2026) then
       some "Established Year must be between 1800 and 2026." else none,
   fun h _ => if !emailMatch (pyStrip h.email) then some "Email address format is invalid." else none,
   fun h _ => if !phoneMatch (pyStrip h.phone_primary) then some "Primary Phone number format is invalid." else none,
   fun h _ => if !phoneMatch (pyStrip h.emergency_contact) then some "Emergency Contact format is invalid." else none,
   fun h _ => if !pinMatch (pyStrip h.pin_code) then some "PIN Code format is invalid." else none,
   fun h db => if existsRegistrationNumber db (pyStrip h.registration_number) h.id then
       some ("Registration Number \x27" ++ h.registration_number ++ "\x27 is already in use.") else none,
   fun h db => if existsLicenseNumber db (pyStrip h.license_number) h.id then
       some ("License Number \x27" ++ h.license_number ++ "\x27 is already in use.") else none]

/-- Case-insensitive substring match, as the words of the spec describe the
name and city criteria of `search`. -/
def ciSubstring (pat s : String) : Bool :=
  containsSub (pat.data.map Char.toLower) (s.data.map Char.toLower)

/-- The conjunctive row filter in the words of the claim for `search`:
`is_active` when `active_only` is set, exact id, case-insensitive substring
on name and city for supplied criteria. -/
def specMatchesRow (nameQ : Option String) (hid : Option Nat) (cityQ : Option String)
    (activeOnly : Bool) (r : HospitalRow) : Bool :=
  (!activeOnly || r.is_active) &&
  (match hid with
   | some i => r.id == i
   | none => true) &&
  (match nameQ with
   | none => true
   | some s => ciSubstring s r.hospital_name) &&
  (match cityQ with
   | none => true
   | some s => ciSubstring s r.city)

/-- A string free of the SQL LIKE wildcard characters. -/
def noWildcards (s : String) : Bool :=
  s.data.all (fun c => !(c == '%') && !(c == '_'))

/-! ## Concrete data for witnesses -/

/-- A hospital input satisfying every validation rule against the empty
store. -/
def sampleHospital : Hospital :=
  { hospital_name := "City Care"
    registration_number := "REG1"
    hospital_type := "Private"
    specialization_type := "General"
    address_line1 := "12 Main Road"
    city := "Delhi"
    state := "Delhi"
    pin_code := "110001"
    phone_primary := "9876543210"
    emergency_contact := "9876500000"
    email := "info@citycare.org"
    administrator_name := "A Admin"
    license_number := "LIC1"
    total_beds := 100
    icu_beds := 10
    operation_theaters := 2
    established_year := 1995 }

/-- The sample input with surrounding whitespace on its mandatory text
fields, still valid after trimming. -/
def wsHospital : Hospital :=
  { sampleHospital with
    hospital_name := " City Care "
    registration_number := " REG9 "
    license_number := " LIC9 "
    email := " info@citycare.org "
    phone_primary := " 9876543210 "
    pin_code := " 110001 " }

/-- A stored row for search witnesses. -/
def delhiRow : HospitalRow :=
  hospitalToRow { sampleHospital with hospital_name := "City Care" } 1 (timeString 0)

/-- A second stored row, in New Delhi. -/
def newDelhiRow : HospitalRow :=
  hospitalToRow
    { sampleHospital with
      hospital_name := "Apex Hospital"
      registration_number := "REG2"
      license_number := "LIC2"
      city := "New Delhi" } 2 (timeString 1)

/-- An inactive stored row, in Mumbai. -/
def mumbaiRow : HospitalRow :=
  { hospitalToRow
      { sampleHospital with
        hospital_name := "Bay Clinic"
        registration_number := "REG3"
        license_number := "LIC3"
        city := "Mumbai"
        is_active := false } 3 (timeString 2) with is_active := false }

/-- A store holding the three rows above. -/
def db3 : DB := ⟨[delhiRow, newDelhiRow, mumbaiRow], 4, 3⟩

/-- Connection oracle on a trivial schema that accepts every statement. -/
def execOk : SqlStmt → Unit → Except String Unit := fun _ _ => Except.ok ()

/-- Connection oracle over a schema that records the executed DDL
statements in order, raising on the registration-number index statement. -/
def execLog : SqlStmt → List SqlStmt → Except String (List SqlStmt) := fun st s =>
  if st == SqlStmt.SQL_CREATE_HOSPITALS_IDX_REG then Except.error "boom"
  else Except.ok (s ++ [st])

/-! ## Theorems -/

/-- Characterization of the registration-number existence query. -/
lemma existsRegistrationNumber_iff (db : DB) (v : String) (excl : Option Nat) :
    existsRegistrationNumber db v excl = true ↔
      ∃ r ∈ db.rows, r.registration_number = v ∧ excl ≠ some r.id := by
  cases excl with
  | none =>
    simp [existsRegistrationNumber, List.any_eq_true]
  | some i =>
    simp only [existsRegistrationNumber, List.any_eq_true, Bool.and_eq_true, beq_iff_eq,
      bne_iff_ne, ne_eq, Option.some.injEq]
    constructor
    · rintro ⟨r, hr, hv, hi⟩
      exact ⟨r, hr, hv, fun hii => hi hii.symm⟩
    · rintro ⟨r, hr, hv, hi⟩
      exact ⟨r, hr, hv, fun hii => hi hii.symm⟩

/-- Characterization of the license-number existence query. -/
lemma existsLicenseNumber_iff (db : DB) (v : String) (excl : Option Nat) :
    existsLicenseNumber db v excl = true ↔
      ∃ r ∈ db.rows, r.license_number = v ∧ excl ≠ some r.id := by
  cases excl with
  | none =>
    simp [existsLicenseNumber, List.any_eq_true]
  | some i =>
    simp only [existsLicenseNumber, List.any_eq_true, Bool.and_eq_true, beq_iff_eq,
      bne_iff_ne, ne_eq, Option.some.injEq]
    constructor
    · rintro ⟨r, hr, hv, hi⟩
      exact ⟨r, hr, hv, fun hii => hi hii.symm⟩
    · rintro ⟨r, hr, hv, hi⟩
      exact ⟨r, hr, hv, fun hii => hi hii.symm⟩

/-- Claim C3: for every stored set of hospital records, every value and
every exclude id, `exists_registration_number` returns true exactly when
some record whose id differs from the exclude id carries that registration
number (with an absent exclude id, exactly when any record carries it), and
`exists_license_number` is the symmetric property over license numbers. -/
theorem exists_queries_characterization (db : DB) (v : String) (excl : Option Nat) :
    (existsRegistrationNumber db v excl = true ↔
      ∃ r ∈ db.rows, r.registration_number = v ∧ excl ≠ some r.id) ∧
    (existsLicenseNumber db v excl = true ↔
      ∃ r ∈ db.rows, r.license_number = v ∧ excl ≠ some r.id) :=
  ⟨existsRegistrationNumber_iff db v excl, existsLicenseNumber_iff db v excl⟩

/-- One step of aligning the validation chain with the spec pipeline. -/
lemma firstFail_step (c : Prop) [Decidable c] (m : String) (r1 r2 : ServiceResult)
    (hr : r1 = r2) :
    (if c then ServiceResult.fail m else r1) =
      ((if c then some m else none).map ServiceResult.fail).getD r2 := by
  by_cases hc : c <;> simp [hc, hr]

/-- Claim C1: `_validate` runs exactly the ordered check pipeline of the
spec — the fourteen mandatory-field checks, then the numeric range checks,
the established-year range, the format checks, and the two uniqueness
checks — stopping at the first failing check; so an input violating an
earlier and a later rule is reported against the earlier rule, with no
later check evaluated. -/
theorem validate_runs_spec_checks_in_order (h : Hospital) (db : DB) :
    validate h db = firstFail specChecks h db := by
  unfold validate specChecks
  simp only [firstFail]
  repeat
    first
    | rfl
    | apply firstFail_step

/-- Claim C8: on any input that fails validation, `register_hospital`
returns the validation failure itself — whose message names the violated
rule — and leaves the store untouched; a second call with the same input on
the resulting state returns the very same failure with no further effect. -/
theorem register_invalid_is_pure_failure (h : Hospital) (db : DB)
    (hv : (validate h db).success = false) :
    registerHospital h db = (validate h db, db) ∧
    registerHospital h (registerHospital h db).2 = registerHospital h db := by
  have h1 : registerHospital h db = (validate h db, db) := by
    unfold registerHospital registerHospitalWith
    simp [hv]
  exact ⟨h1, by rw [h1]; exact h1⟩

/-- Witness for the invalid-input claim: a name of pure whitespace fails,
the store is unchanged, and the reported message names the violated rule. -/
theorem register_invalid_is_pure_failure_witness :
    (validate { sampleHospital with hospital_name := "   " } db0).success = false ∧
    (validate { sampleHospital with hospital_name := "   " } db0).message =
      "Hospital Name is required." ∧
    registerHospital { sampleHospital with hospital_name := "   " } db0 =
      (validate { sampleHospital with hospital_name := "   " } db0, db0) := by
  refine ⟨by decide, by decide, ?_⟩
  exact (register_invalid_is_pure_failure { sampleHospital with hospital_name := "   " } db0
    (by decide)).1

/-- Counterexample for claim C2: the failure message produced when the
repository add raises is not an opaque constant — it varies with (and
embeds) the text of the underlying exception, so the original cause is
exposed to the caller. -/
theorem register_db_error_not_opaque :
    ¬ ((registerHospitalWith sampleHospital db0 (Except.error "disk failure")).1.message =
       (registerHospitalWith sampleHospital db0
         (Except.error "UNIQUE constraint failed")).1.message) := by
  decide

/-- Claim C2 as amended: when validation passes and the repository add
raises any storage exception, `register_hospital` catches it and returns a
failure result whose message is the prefix `Database error: ` followed by
the text of the exception itself (the original cause is therefore included,
not hidden), the store value is left unchanged, and no exception escapes —
the function returns a `ServiceResult` in every case. -/
theorem register_wraps_storage_error (h : Hospital) (db : DB) (e : String)
    (hv : (validate h db).success = true) :
    registerHospitalWith h db (Except.error e) =
      (ServiceResult.fail ("Database error: " ++ e), db) := by
  unfold registerHospitalWith
  simp [hv]

/-- Witness for the amended storage-error claim at a concrete exception. -/
theorem register_wraps_storage_error_witness :
    (validate sampleHospital db0).success = true ∧
    registerHospitalWith sampleHospital db0 (Except.error "boom") =
      (ServiceResult.fail ("Database error: " ++ "boom"), db0) :=
  ⟨by decide, register_wraps_storage_error sampleHospital db0 "boom" (by decide)⟩

/-- Claim C7: on an input valid in every other respect, registration
succeeds exactly when the established year lies in the closed interval from
1800 to the current-year constant 2026 — so 1800 and 2026 succeed while 1799
and 2027 fail. -/
theorem register_established_year_boundary (h : Hospital) (db : DB)
    (h1 : pyStrip h.hospital_name ≠ "")
    (h2 : pyStrip h.registration_number ≠ "")
    (h3 : pyStrip h.hospital_type ≠ "")
    (h4 : pyStrip h.specialization_type ≠ "")
    (h5 : pyStrip h.address_line1 ≠ "")
    (h6 : pyStrip h.city ≠ "")
    (h7 : pyStrip h.state ≠ "")
    (h8 : pyStrip h.pin_code ≠ "")
    (h9 : pyStrip h.country ≠ "")
    (h10 : pyStrip h.phone_primary ≠ "")
    (h11 : pyStrip h.emergency_contact ≠ "")
    (h12 : pyStrip h.email ≠ "")
    (h13 : pyStrip h.administrator_name ≠ "")
    (h14 : pyStrip h.license_number ≠ "")
    (hb1 : ¬(h.total_beds ≤ 0))
    (hb2 : ¬(h.icu_beds < 0))
    (hb3 : ¬(h.icu_beds > h.total_beds))
    (hb4 : ¬(h.operation_theaters < 0))
    (hf1 : emailMatch (pyStrip h.email) = true)
    (hf2 : phoneMatch (pyStrip h.phone_primary) = true)
    (hf3 : phoneMatch (pyStrip h.emergency_contact) = true)
    (hf4 : pinMatch (pyStrip h.pin_code) = true)
    (hu1 : existsRegistrationNumber db (pyStrip h.registration_number) h.id = false)
    (hu2 : existsLicenseNumber db (pyStrip h.license_number) h.id = false)
    (hd1 : db.rows.any (fun r => r.registration_number == h.registration_number) = false)
    (hd2 : db.rows.any (fun r => r.license_number == h.license_number) = false) :
    ∀ y : Int,
      (registerHospital { h with established_year := y } db).1.success = true ↔
        (1800 ≤ y ∧ y ≤ 2026) := by
  intro y
  unfold registerHospital registerHospitalWith addE validate
  by_cases hy : (1800 ≤ y ∧ y ≤ 2026) <;>
    simp [h1, h2, h3, h4, h5, h6, h7, h8, h9, h10, h11, h12, h13, h14,
      hb1, hb2, hb3, hb4, hf1, hf2, hf3, hf4, hu1, hu2, hd1, hd2, hy,
      ServiceResult.okMsg, ServiceResult.fail]

/-- Witness for the year-boundary claim: all four boundary cases at a
concrete otherwise-valid input over the empty store. -/
theorem register_established_year_boundary_witness :
    (registerHospital { sampleHospital with established_year := 1800 } db0).1.success = true ∧
    (registerHospital { sampleHospital with established_year := 2026 } db0).1.success = true ∧
    ¬ ((registerHospital { sampleHospital with established_year := 1799 } db0).1.success = true) ∧
    ¬ ((registerHospital { sampleHospital with established_year := 2027 } db0).1.success = true) := by
  have t := register_established_year_boundary sampleHospital db0
    (by decide) (by decide) (by decide) (by decide) (by decide) (by decide) (by decide)
    (by decide) (by decide) (by decide) (by decide) (by decide) (by decide) (by decide)
    (by decide) (by decide) (by decide) (by decide) (by decide) (by decide) (by decide)
    (by decide) (by decide) (by decide) (by decide) (by decide)
  refine ⟨(t 1800).mpr (by decide), (t 2026).mpr (by decide), ?_, ?_⟩
  · intro hs
    have := (t 1799).mp hs
    omega
  · intro hs
    have := (t 2027).mp hs
    omega

/-- Find skips a prefix on which the predicate is false. -/
lemma find?_append_left_none {α : Type} (p : α → Bool) (l1 l2 : List α)
    (hnone : ∀ a ∈ l1, p a = false) : (l1 ++ l2).find? p = l2.find? p := by
  induction l1 with
  | nil => rfl
  | cons a t ih =>
    rw [List.cons_append, List.find?_cons_of_neg _ (by simp [hnone a (by simp)])]
    exact ih (fun x hx => hnone x (by simp [hx]))

/-- Claim C10: the entity returned by the gateway add is the input entity
with only its id changed to the storage-generated identifier; every other
field — the timestamps included — is exactly as supplied, so timestamps
absent on the input stay absent on the returned entity, while a fresh read
by id sees the storage-assigned timestamps. -/
theorem add_returns_entity_with_only_id_set (h : Hospital) (db : DB)
    (hfresh : ∀ r ∈ db.rows, r.id ≠ db.nextId) :
    (add h db).1 = { h with id := some db.nextId } ∧
    (add h db).1.created_at = h.created_at ∧
    (add h db).1.updated_at = h.updated_at ∧
    findById db.nextId (add h db).2 =
      some (Hospital.fromRow (hospitalToRow h db.nextId (timeString db.clock))) ∧
    (Hospital.fromRow (hospitalToRow h db.nextId (timeString db.clock))).created_at =
      some (timeString db.clock) ∧
    (Hospital.fromRow (hospitalToRow h db.nextId (timeString db.clock))).updated_at =
      some (timeString db.clock) := by
  refine ⟨rfl, rfl, rfl, ?_, rfl, rfl⟩
  unfold findById add
  rw [find?_append_left_none _ _ _ (fun r hr => by simp [hfresh r hr])]
  rw [List.find?_cons_of_pos _ (by simp [hospitalToRow])]
  rfl

/-- Witness for the add frame claim over the empty store: the returned
entity keeps its absent timestamps, and the fresh read sees assigned
ones. -/
theorem add_returns_entity_with_only_id_set_witness :
    (add sampleHospital db0).1 = { sampleHospital with id := some db0.nextId } ∧
    (add sampleHospital db0).1.created_at = none ∧
    findById db0.nextId (add sampleHospital db0).2 =
      some (Hospital.fromRow (hospitalToRow sampleHospital db0.nextId (timeString db0.clock))) := by
  have t := add_returns_entity_with_only_id_set sampleHospital db0 (by simp [db0])
  exact ⟨t.1, t.2.1, t.2.2.2.1⟩

/-- Claim C9: validation trims only for the purpose of checking.  Under the
checks that precede uniqueness, validation succeeds exactly when no stored
record other than the input itself carries the trimmed registration number,
and likewise the trimmed license number — the trimmed values are compared
against the stored column values verbatim; and whenever the insert goes
through, the persisted row carries every supplied field value exactly as
given, untrimmed. -/
theorem register_persists_untrimmed_compares_trimmed (h : Hospital) (db : DB)
    (h1 : pyStrip h.hospital_name ≠ "")
    (h2 : pyStrip h.registration_number ≠ "")
    (h3 : pyStrip h.hospital_type ≠ "")
    (h4 : pyStrip h.specialization_type ≠ "")
    (h5 : pyStrip h.address_line1 ≠ "")
    (h6 : pyStrip h.city ≠ "")
    (h7 : pyStrip h.state ≠ "")
    (h8 : pyStrip h.pin_code ≠ "")
    (h9 : pyStrip h.country ≠ "")
    (h10 : pyStrip h.phone_primary ≠ "")
    (h11 : pyStrip h.emergency_contact ≠ "")
    (h12 : pyStrip h.email ≠ "")
    (h13 : pyStrip h.administrator_name ≠ "")
    (h14 : pyStrip h.license_number ≠ "")
    (hb1 : ¬(h.total_beds ≤ 0))
    (hb2 : ¬(h.icu_beds < 0))
    (hb3 : ¬(h.icu_beds > h.total_beds))
    (hb4 : ¬(h.operation_theaters < 0))
    (hy : 1800 ≤ h.established_year ∧ h.established_year ≤ 2026)
    (hf1 : emailMatch (pyStrip h.email) = true)
    (hf2 : phoneMatch (pyStrip h.phone_primary) = true)
    (hf3 : phoneMatch (pyStrip h.emergency_contact) = true)
    (hf4 : pinMatch (pyStrip h.pin_code) = true) :
    ((validate h db).success = true ↔
      ((¬ ∃ r ∈ db.rows, r.registration_number = pyStrip h.registration_number ∧
          h.id ≠ some r.id) ∧
       (¬ ∃ r ∈ db.rows, r.license_number = pyStrip h.license_number ∧
          h.id ≠ some r.id))) ∧
    (∀ out, addE h db = Except.ok out →
      out.2.rows = db.rows ++ [hospitalToRow h db.nextId (timeString db.clock)] ∧
      (hospitalToRow h db.nextId (timeString db.clock)).hospital_name = h.hospital_name ∧
      (hospitalToRow h db.nextId (timeString db.clock)).registration_number = h.registration_number ∧
      (hospitalToRow h db.nextId (timeString db.clock)).hospital_type = h.hospital_type ∧
      (hospitalToRow h db.nextId (timeString db.clock)).specialization_type = h.specialization_type ∧
      (hospitalToRow h db.nextId (timeString db.clock)).address_line1 = h.address_line1 ∧
      (hospitalToRow h db.nextId (timeString db.clock)).address_line2 = h.address_line2 ∧
      (hospitalToRow h db.nextId (timeString db.clock)).city = h.city ∧
      (hospitalToRow h db.nextId (timeString db.clock)).state = h.state ∧
      (hospitalToRow h db.nextId (timeString db.clock)).pin_code = h.pin_code ∧
      (hospitalToRow h db.nextId (timeString db.clock)).country = h.country ∧
      (hospitalToRow h db.nextId (timeString db.clock)).phone_primary = h.phone_primary ∧
      (hospitalToRow h db.nextId (timeString db.clock)).phone_alternate = h.phone_alternate ∧
      (hospitalToRow h db.nextId (timeString db.clock)).emergency_contact = h.emergency_contact ∧
      (hospitalToRow h db.nextId (timeString db.clock)).email = h.email ∧
      (hospitalToRow h db.nextId (timeString db.clock)).website = h.website ∧
      (hospitalToRow h db.nextId (timeString db.clock)).total_beds = h.total_beds ∧
      (hospitalToRow h db.nextId (timeString db.clock)).icu_beds = h.icu_beds ∧
      (hospitalToRow h db.nextId (timeString db.clock)).operation_theaters = h.operation_theaters ∧
      (hospitalToRow h db.nextId (timeString db.clock)).administrator_name = h.administrator_name ∧
      (hospitalToRow h db.nextId (timeString db.clock)).license_number = h.license_number ∧
      (hospitalToRow h db.nextId (timeString db.clock)).accreditation = h.accreditation ∧
      (hospitalToRow h db.nextId (timeString db.clock)).established_year = h.established_year ∧
      (hospitalToRow h db.nextId (timeString db.clock)).gstin = h.gstin ∧
      (hospitalToRow h db.nextId (timeString db.clock)).is_active = h.is_active) := by
  constructor
  · have hval : (validate h db).success =
        (!existsRegistrationNumber db (pyStrip h.registration_number) h.id &&
         !existsLicenseNumber db (pyStrip h.license_number) h.id) := by
      unfold validate
      cases hcr : existsRegistrationNumber db (pyStrip h.registration_number) h.id <;>
        cases hcl : existsLicenseNumber db (pyStrip h.license_number) h.id <;>
        simp [h1, h2, h3, h4, h5, h6, h7, h8, h9, h10, h11, h12, h13, h14,
          hb1, hb2, hb3, hb4, hy, hf1, hf2, hf3, hf4, hcr, hcl,
          ServiceResult.fail, ServiceResult.okMsg]
    have iff1 := existsRegistrationNumber_iff db (pyStrip h.registration_number) h.id
    have iff2 := existsLicenseNumber_iff db (pyStrip h.license_number) h.id
    have e1 : (¬ ∃ r ∈ db.rows, r.registration_number = pyStrip h.registration_number ∧
        h.id ≠ some r.id) ↔
        existsRegistrationNumber db (pyStrip h.registration_number) h.id = false := by
      constructor
      · intro hno
        cases hx : existsRegistrationNumber db (pyStrip h.registration_number) h.id with
        | false => rfl
        | true =>
          obtain ⟨r, hr, hv, hi⟩ := iff1.mp hx
          exact absurd ⟨r, hr, hv, fun hc => hi (by rw [hc])⟩ hno
      · intro hx hex
        obtain ⟨r, hr, hv, hi⟩ := hex
        have := iff1.mpr ⟨r, hr, hv, hi⟩
        rw [hx] at this
        exact Bool.false_ne_true this
    have e2 : (¬ ∃ r ∈ db.rows, r.license_number = pyStrip h.license_number ∧
        h.id ≠ some r.id) ↔
        existsLicenseNumber db (pyStrip h.license_number) h.id = false := by
      constructor
      · intro hno
        cases hx : existsLicenseNumber db (pyStrip h.license_number) h.id with
        | false => rfl
        | true =>
          obtain ⟨r, hr, hv, hi⟩ := iff2.mp hx
          exact absurd ⟨r, hr, hv, fun hc => hi (by rw [hc])⟩ hno
      · intro hx hex
        obtain ⟨r, hr, hv, hi⟩ := hex
        have := iff2.mpr ⟨r, hr, hv, hi⟩
        rw [hx] at this
        exact Bool.false_ne_true this
    rw [hval, e1, e2]
    simp [Bool.and_eq_true, Bool.not_eq_true']
  · intro out hout
    unfold addE at hout
    split_ifs at hout
    cases hout
    exact ⟨rfl, rfl, rfl, rfl, rfl, rfl, rfl, rfl, rfl, rfl, rfl, rfl, rfl,
      rfl, rfl, rfl, rfl, rfl, rfl, rfl, rfl, rfl, rfl, rfl, rfl⟩

/-- Witness for the untrimmed-persistence claim: an input whose mandatory
fields carry surrounding whitespace is stored with that whitespace
intact. -/
theorem register_persists_untrimmed_compares_trimmed_witness :
    addE wsHospital db0 = Except.ok (add wsHospital db0) ∧
    (add wsHospital db0).2.rows =
      db0.rows ++ [hospitalToRow wsHospital db0.nextId (timeString db0.clock)] ∧
    (hospitalToRow wsHospital db0.nextId (timeString db0.clock)).hospital_name =
      " City Care " ∧
    (hospitalToRow wsHospital db0.nextId (timeString db0.clock)).registration_number =
      " REG9 " := by
  have t := register_persists_untrimmed_compares_trimmed wsHospital db0
    (by decide) (by decide) (by decide) (by decide) (by decide) (by decide) (by decide)
    (by decide) (by decide) (by decide) (by decide) (by decide) (by decide) (by decide)
    (by decide) (by decide) (by decide) (by decide) (by decide) (by decide) (by decide)
    (by decide) (by decide)
  have m := t.2 (add wsHospital db0) rfl
  exact ⟨rfl, m.1, m.2.1.trans (by rfl), m.2.2.1.trans (by rfl)⟩

/-! ## Migrator theorems -/

/-- A connection on which every statement succeeds runs any statement list
to a successful end state. -/
lemma runStatements_total {σ : Type} (exec : SqlStmt → σ → Except String σ)
    (hexec : ∀ st s, ∃ s2, exec st s = Except.ok s2) :
    ∀ (stmts : List SqlStmt) (s : σ), ∃ s2, runStatements exec stmts s = Except.ok s2 := by
  intro stmts
  induction stmts with
  | nil => exact fun s => ⟨s, rfl⟩
  | cons st rest ih =>
    intro s
    obtain ⟨s2, he⟩ := hexec st s
    obtain ⟨s3, hr⟩ := ih s2
    exact ⟨s3, by simp [runStatements, he, hr]⟩

/-- The loop applies every pending migration in list order, appending one
ledger row per migration. -/
lemma migrateLoop_applies_all {σ : Type} (exec : SqlStmt → σ → Except String σ) (cur : Nat)
    (hexec : ∀ st s, ∃ s2, exec st s = Except.ok s2) :
    ∀ (migs : List Migration) (db : MigDB σ), (∀ m ∈ migs, cur < m.version) →
      ∃ s2, migrateLoop exec cur migs db =
        MigResult.ok ⟨s2, db.ledger ++ migs.map (fun m => (m.version, m.description))⟩ := by
  intro migs
  induction migs with
  | nil => exact fun db _ => ⟨db.schema, by simp [migrateLoop]⟩
  | cons m rest ih =>
    intro db hv
    have hm : cur < m.version := hv m (by simp)
    obtain ⟨s2, hrun⟩ := runStatements_total exec hexec m.statements db.schema
    obtain ⟨s3, hloop⟩ := ih ⟨s2, db.ledger ++ [(m.version, m.description)]⟩
      (fun x hx => hv x (by simp [hx]))
    refine ⟨s3, ?_⟩
    simp only [migrateLoop]
    rw [if_neg (by omega), hrun]
    dsimp only
    rw [hloop]
    simp

/-- The loop is the identity when every migration version is at or below
the current version. -/
lemma migrateLoop_skips_all {σ : Type} (exec : SqlStmt → σ → Except String σ) (cur : Nat) :
    ∀ (migs : List Migration) (db : MigDB σ), (∀ m ∈ migs, m.version ≤ cur) →
      migrateLoop exec cur migs db = MigResult.ok db := by
  intro migs
  induction migs with
  | nil => exact fun db _ => rfl
  | cons m rest ih =>
    intro db hv
    simp only [migrateLoop]
    rw [if_pos (hv m (by simp))]
    exact ih db (fun x hx => hv x (by simp [hx]))

/-- Claim C4: on an empty ledger (version 0) with a connection accepting
every statement, `migrate()` applies every defined migration and the ledger
ends up with exactly one row per migration, in list order — ascending in
version when the migrations list is ascending; and on a store already at the
latest recorded version, `migrate()` returns normally leaving the store
exactly as it was. -/
theorem migrate_fresh_store_and_noop {σ : Type} (exec : SqlStmt → σ → Except String σ)
    (migs : List Migration) (db : MigDB σ) :
    (db.ledger = [] →
     (∀ st s, ∃ s2, exec st s = Except.ok s2) →
     (∀ m ∈ migs, 0 < m.version) →
     List.Pairwise (fun a b => a.version < b.version) migs →
     ∃ s2, migrate exec migs db =
         MigResult.ok ⟨s2, migs.map (fun m => (m.version, m.description))⟩ ∧
       List.Pairwise (fun p q : Nat × String => p.1 < q.1)
         (migs.map (fun m => (m.version, m.description)))) ∧
    ((∀ m ∈ migs, m.version ≤ currentVersion db.ledger) →
     exec SqlStmt.SQL_CREATE_SCHEMA_VERSION db.schema = Except.ok db.schema →
     migrate exec migs db = MigResult.ok db) := by
  constructor
  · intro hl hexec hpos hsort
    obtain ⟨s1, he⟩ := hexec SqlStmt.SQL_CREATE_SCHEMA_VERSION db.schema
    obtain ⟨s2, hloop⟩ := migrateLoop_applies_all exec (currentVersion db.ledger) hexec migs
      ⟨s1, db.ledger⟩ (fun m hm => by simpa [hl, currentVersion] using hpos m hm)
    refine ⟨s2, ?_, hsort.map _ (fun a b hab => hab)⟩
    unfold migrate
    rw [he]
    dsimp only
    rw [hloop]
    simp [hl]
  · intro hle he
    unfold migrate
    rw [he]
    exact migrateLoop_skips_all exec (currentVersion db.ledger) migs db hle

/-- Witness for the migrator claim: the defined MIGRATIONS list on a fresh
store writes its single ledger row, and a second run from the resulting
ledger changes nothing and raises nothing. -/
theorem migrate_fresh_store_and_noop_witness :
    (∃ s2 : Unit, migrate execOk MIGRATIONS (⟨(), []⟩ : MigDB Unit) =
        MigResult.ok ⟨s2, MIGRATIONS.map (fun m => (m.version, m.description))⟩ ∧
      List.Pairwise (fun p q : Nat × String => p.1 < q.1)
        (MIGRATIONS.map (fun m => (m.version, m.description)))) ∧
    migrate execOk MIGRATIONS
        (⟨(), [(1, "Initial schema – hospitals table")]⟩ : MigDB Unit) =
      MigResult.ok ⟨(), [(1, "Initial schema – hospitals table")]⟩ := by
  constructor
  · obtain ⟨s2, hok, hp⟩ :=
      (migrate_fresh_store_and_noop execOk MIGRATIONS (⟨(), []⟩ : MigDB Unit)).1
        rfl (fun st s => ⟨(), rfl⟩) (by decide) (by decide)
    exact ⟨s2, hok, hp⟩
  · exact (migrate_fresh_store_and_noop execOk MIGRATIONS
      (⟨(), [(1, "Initial schema – hospitals table")]⟩ : MigDB Unit)).2 (by decide) rfl

/-- Claim C5 records a code bug: the source intends each migration step to
be all-or-nothing — on a failing statement it calls `conn.rollback()` and
the spec promises the store is restored to its pre-step state — but the
connection is opened with the default legacy transaction control
(`sqlite3.connect` with no isolation argument), which never issues an
implicit BEGIN before DDL, and every statement of the defined migrations is
DDL.  Each statement of a step is therefore committed the moment it
executes and the rollback has no open transaction to undo.  Concretely: a
pending version-1 step whose statements are the hospitals CREATE TABLE
followed by the registration-number index, run against an empty store on a
connection that raises on the index statement, aborts with the wrapped
RuntimeError, writes no ledger row and attempts no further migration — but
the committed schema keeps the CREATE TABLE of the failed step (on top of
the ensure-step version table), so it differs from the pre-step schema and
the step was applied in part. -/
theorem migrate_step_failure_partial_application :
    migrate execLog
        [⟨1, "Initial schema – hospitals table",
          [SqlStmt.SQL_CREATE_HOSPITALS, SqlStmt.SQL_CREATE_HOSPITALS_IDX_REG]⟩]
        (⟨[], []⟩ : MigDB (List SqlStmt)) =
      MigResult.err ("[SchemaManager] Migration v" ++ toString 1 ++ " failed: " ++ "boom")
        ⟨[SqlStmt.SQL_CREATE_SCHEMA_VERSION, SqlStmt.SQL_CREATE_HOSPITALS], []⟩ ∧
    ([SqlStmt.SQL_CREATE_SCHEMA_VERSION, SqlStmt.SQL_CREATE_HOSPITALS] ≠
      [SqlStmt.SQL_CREATE_SCHEMA_VERSION]) := by
  exact ⟨by decide, by decide⟩

/-! ## Search theorems -/

/-- Totality of the BINARY collation order. -/
lemma charListLe_total : ∀ a b : List Char, charListLe a b = true ∨ charListLe b a = true := by
  intro a
  induction a with
  | nil => exact fun b => Or.inl rfl
  | cons x xs ih =>
    intro b
    cases b with
    | nil => exact Or.inr rfl
    | cons y ys =>
      rcases Nat.lt_trichotomy x.val.toNat y.val.toNat with h | h | h
      · exact Or.inl (by simp [charListLe, h])
      · have h1 : ¬ x.val.toNat < y.val.toNat := by omega
        have h2 : ¬ y.val.toNat < x.val.toNat := by omega
        rcases ih ys with h3 | h3
        · exact Or.inl (by simp [charListLe, h1, h2, h3])
        · exact Or.inr (by simp [charListLe, h1, h2, h3])
      · exact Or.inr (by simp [charListLe, h])

/-- Transitivity of the BINARY collation order. -/
lemma charListLe_trans :
    ∀ a b c : List Char, charListLe a b = true → charListLe b c = true →
      charListLe a c = true := by
  intro a
  induction a with
  | nil => exact fun _ _ _ _ => rfl
  | cons x xs ih =>
    intro b c hab hbc
    cases b with
    | nil => simp [charListLe] at hab
    | cons y ys =>
      cases c with
      | nil => simp [charListLe] at hbc
      | cons z zs =>
        by_cases hxy : x.val.toNat < y.val.toNat
        · by_cases hyz : y.val.toNat < z.val.toNat
          · have hxz : x.val.toNat < z.val.toNat := by omega
            simp [charListLe, hxz]
          · by_cases hzy : z.val.toNat < y.val.toNat
            · exfalso
              simp [charListLe, hyz, hzy] at hbc
            · have hxz : x.val.toNat < z.val.toNat := by omega
              simp [charListLe, hxz]
        · by_cases hyx : y.val.toNat < x.val.toNat
          · exfalso
            simp [charListLe, hxy, hyx] at hab
          · simp only [charListLe, if_neg hxy, if_neg hyx] at hab
            by_cases hyz : y.val.toNat < z.val.toNat
            · have hxz : x.val.toNat < z.val.toNat := by omega
              simp [charListLe, hxz]
            · by_cases hzy : z.val.toNat < y.val.toNat
              · exfalso
                simp [charListLe, hyz, hzy] at hbc
              · simp only [charListLe, if_neg hyz, if_neg hzy] at hbc
                have h1 : ¬ x.val.toNat < z.val.toNat := by omega
                have h2 : ¬ z.val.toNat < x.val.toNat := by omega
                simp only [charListLe, if_neg h1, if_neg h2]
                exact ih ys zs hab hbc

/-- A single percent pattern matches every text. -/
lemma likeMatch_percent_only (t : List Char) : likeMatch ['%'] t = true := by
  induction t with
  | nil => rfl
  | cons a t2 ih =>
    simp only [likeMatch, List.tails_cons, List.any_cons]
    simp only [likeMatch] at ih
    simp [ih]

/-- A wildcard-free pattern followed by a final percent matches a text
exactly when the lowered pattern is a prefix of the lowered text. -/
lemma likeMatch_plain_percent (p : List Char)
    (hp : p.all (fun c => !(c == '%') && !(c == '_')) = true) :
    ∀ t, likeMatch (p ++ ['%']) t = prefixOf (p.map Char.toLower) (t.map Char.toLower) := by
  induction p with
  | nil => exact fun t => by simpa [prefixOf] using likeMatch_percent_only t
  | cons c p2 ih =>
    have hc : !(c == '%') && !(c == '_') = true := by
      have := List.all_eq_true.mp hp c (by simp)
      simpa using this
    have hc1 : ¬ (c = '%') := by
      intro hcc
      rw [hcc] at hc
      simp at hc
    have hc2 : ¬ (c = '_') := by
      intro hcc
      rw [hcc] at hc
      simp at hc
    have hp2 : p2.all (fun c => !(c == '%') && !(c == '_')) = true := by
      rw [List.all_eq_true] at hp ⊢
      exact fun x hx => hp x (by simp [hx])
    intro t
    cases t with
    | nil =>
      simp [likeMatch, prefixOf, hc1, hc2]
    | cons d t2 =>
      simp [likeMatch, prefixOf, hc1, hc2, ih hp2 t2]

/-- Substring containment agrees with scanning the tails for a prefix. -/
lemma containsSub_eq_any_tails (p : List Char) :
    ∀ hay, containsSub p hay = hay.tails.any (fun s => prefixOf p s) := by
  intro hay
  induction hay with
  | nil => simp [containsSub]
  | cons a t ih => simp [containsSub, List.tails_cons, ih]

/-- Tails after mapping are the mapped tails. -/
lemma tails_map_eq (f : Char → Char) (l : List Char) :
    (l.map f).tails = l.tails.map (List.map f) := by
  induction l with
  | nil => simp
  | cons a t ih => simp [List.tails_cons, ih]

/-- The LIKE pattern built by `search` — percent, criterion, percent — is
exactly case-insensitive substring matching when the criterion carries no
wildcard. -/
lemma likeMatch_wrap_eq_ciSubstring (pat s : String) (hp : noWildcards pat = true) :
    likeMatch ('%' :: (pat.data ++ ['%'])) s.data = ciSubstring pat s := by
  have hp' : pat.data.all (fun c => !(c == '%') && !(c == '_')) = true := hp
  simp only [likeMatch, likeMatch_plain_percent pat.data hp']
  rw [ciSubstring, containsSub_eq_any_tails, tails_map_eq, List.any_map]
  rfl

/-- The trivial criterion matches everything. -/
lemma containsSub_nil_left : ∀ hay, containsSub ([] : List Char) hay = true := by
  intro hay
  cases hay <;> simp [containsSub, prefixOf]

/-- On wildcard-free criteria the WHERE clause of `search` coincides with
the substring filter of the spec. -/
lemma searchCond_eq_spec (nameQ : Option String) (hid : Option Nat) (cityQ : Option String)
    (r : HospitalRow)
    (hn : ∀ s, nameQ = some s → noWildcards s = true)
    (hc : ∀ s, cityQ = some s → noWildcards s = true) :
    searchCond nameQ hid cityQ true r = specMatchesRow nameQ hid cityQ true r := by
  unfold searchCond specMatchesRow
  congr 1
  · congr 1
    cases nameQ with
    | none => rfl
    | some s =>
      by_cases hs : s = ""
      · subst hs
        simp [ciSubstring, containsSub_nil_left]
      · simp [hs, likeMatch_wrap_eq_ciSubstring s r.hospital_name (hn s rfl)]
  · cases cityQ with
    | none => rfl
    | some s =>
      by_cases hs : s = ""
      · subst hs
        simp [ciSubstring, containsSub_nil_left]
      · simp [hs, likeMatch_wrap_eq_ciSubstring s r.city (hc s rfl)]

/-- Counterexample for claim C6: a supplied city criterion containing the
LIKE wildcard underscore matches the stored city Delhi through `search`
although it is not a case-insensitive substring of it — the claimed
substring semantics does not hold for every supplied criterion. -/
theorem search_substring_claim_counterexample :
    search ⟨[delhiRow], 2, 1⟩ none none (some "d_lhi") true =
      [Hospital.fromRow delhiRow] ∧
    ciSubstring "d_lhi" "Delhi" = false := by
  constructor
  · decide
  · decide

/-- Claim C6 as amended: when the supplied name and city criteria contain no
SQL LIKE wildcard (percent or underscore), `search` returns exactly the
records matching all supplied criteria conjunctively — name and city as
case-insensitive substring matches, id as an exact match, plus the active
flag — sorted by hospital name ascending; with no criteria it returns
exactly the active records.  (With wildcards in a criterion the match is SQL
LIKE on the criterion wrapped in percent signs, not substring.) -/
theorem search_conjunctive_substring_sorted (db : DB) (nameQ : Option String)
    (hid : Option Nat) (cityQ : Option String)
    (hn : ∀ s, nameQ = some s → noWildcards s = true)
    (hc : ∀ s, cityQ = some s → noWildcards s = true) :
    List.Perm (search db nameQ hid cityQ true)
      ((db.rows.filter (specMatchesRow nameQ hid cityQ true)).map Hospital.fromRow) ∧
    List.Sorted hospLe (search db nameQ hid cityQ true) ∧
    List.Perm (search db none none none true)
      ((db.rows.filter (fun r => r.is_active)).map Hospital.fromRow) := by
  haveI : IsTotal HospitalRow rowLe := ⟨fun _ _ => charListLe_total _ _⟩
  haveI : IsTrans HospitalRow rowLe := ⟨fun _ _ _ => charListLe_trans _ _ _⟩
  refine ⟨?_, ?_, ?_⟩
  · unfold search
    rw [List.filter_congr (fun r _ => searchCond_eq_spec nameQ hid cityQ r hn hc)]
    exact (List.perm_insertionSort rowLe _).map Hospital.fromRow
  · unfold search
    exact List.Pairwise.map Hospital.fromRow (fun _ _ hab => hab)
      (List.sorted_insertionSort rowLe _)
  · unfold search
    have he : db.rows.filter (searchCond none none none true) =
        db.rows.filter (fun r => r.is_active) :=
      List.filter_congr (fun r _ => by simp [searchCond])
    rw [he]
    exact (List.perm_insertionSort rowLe _).map Hospital.fromRow

/-- Witness for the amended search claim: the criterion `del` has no
wildcard, and against a store holding Delhi, New Delhi and an inactive
Mumbai record, the matching set is exactly the two Delhi records. -/
theorem search_conjunctive_substring_sorted_witness :
    noWildcards "del" = true ∧
    List.Perm (search db3 none none (some "del") true)
      ((db3.rows.filter (specMatchesRow none none (some "del") true)).map Hospital.fromRow) ∧
    List.Sorted hospLe (search db3 none none (some "del") true) ∧
    (db3.rows.filter (specMatchesRow none none (some "del") true)).map Hospital.fromRow =
      [Hospital.fromRow delhiRow, Hospital.fromRow newDelhiRow] := by
  have t := search_conjunctive_substring_sorted db3 none none (some "del")
    (fun s hs => by cases hs) (fun s hs => by cases hs; decide)
  exact ⟨by decide, t.1, t.2.1, by decide⟩
